import Mathlib

/-!
Verification of the sales-reporting API's validation and query-construction
logic: a shallow embedding of the utility validators, the SQL statement
builders, the relational meaning of two of the built statements, and the
route handlers' control flow.
-/

namespace SalesApi

/-- The five granularity strings of the TimeGranularity type
(`VALID_GRANULARITIES` in constants). -/
def VALID_GRANULARITIES : List String := ["day", "week", "month", "quarter", "year"]

def PAGINATION_DEFAULT_LIMIT : Int := 10
def PAGINATION_MAX_LIMIT : Int := 100
def PAGINATION_MIN_LIMIT : Int := 1

def isDigitChar (c : Char) : Bool := '0' ≤ c && c ≤ '9'

def digitVal (c : Char) : Nat := c.toNat - '0'.toNat

/-- Decompose a string of the exact shape `\d{4}-\d{2}-\d{2}` (the
`DATE_REGEX` pattern) into its year, month and day numbers; `none` when the
string does not match. -/
def parseYMD (s : String) : Option (Nat × Nat × Nat) :=
  match s.data with
  | [y1, y2, y3, y4, h1, m1, m2, h2, d1, d2] =>
    if isDigitChar y1 && isDigitChar y2 && isDigitChar y3 && isDigitChar y4 &&
        h1 = '-' && isDigitChar m1 && isDigitChar m2 &&
        h2 = '-' && isDigitChar d1 && isDigitChar d2 then
      some (((digitVal y1 * 10 + digitVal y2) * 10 + digitVal y3) * 10 + digitVal y4,
            digitVal m1 * 10 + digitVal m2,
            digitVal d1 * 10 + digitVal d2)
    else none
  | _ => none

/-- `DATE_REGEX.test` for the pattern `^\d{4}-\d{2}-\d{2}$`. -/
def dateRegexTest (s : String) : Bool := (parseYMD s).isSome

/-- Models `!isNaN(new Date(s).getTime())` for a ten-character string.
Per the ECMAScript date-time string format, a `YYYY-MM-DD` string is a
conforming instance when `01 ≤ MM ≤ 12` and `01 ≤ DD ≤ 31`; a conforming
instance always yields a finite time value (days past the month's end roll
over via `MakeDay`, e.g. `2021-02-29` becomes `2021-03-01`).  Non-conforming
strings (month `00` or `13`, day `00`) fall back to the engine's heuristic
parser, which rejects them (`NaN`), as the repository's own tests pin for
`2021-13-01` and `2021-00-01`. -/
def jsDateParseOk (s : String) : Bool :=
  match parseYMD s with
  | some (_, m, d) => 1 ≤ m && m ≤ 12 && 1 ≤ d && d ≤ 31
  | none => false

/-- `isValidDate` from utils: regex test plus `new Date` NaN check. -/
def isValidDate (dateStr : String) : Bool :=
  dateRegexTest dateStr && jsDateParseOk dateStr

/-- Gregorian leap-year rule, used only to state calendar validity. -/
def isLeapYear (y : Nat) : Bool :=
  (y % 4 = 0 && y % 100 ≠ 0) || y % 400 = 0

/-- Number of days in a month of the proleptic Gregorian calendar. -/
def daysInMonth (y m : Nat) : Nat :=
  if m = 2 then (if isLeapYear y then 29 else 28)
  else if m = 4 ∨ m = 6 ∨ m = 9 ∨ m = 11 then 30
  else 31

/-- A (year, month, day) triple denotes a calendar-valid date. -/
def calendarValid (y m d : Nat) : Bool :=
  1 ≤ m && m ≤ 12 && 1 ≤ d && d ≤ daysInMonth y m

/-- `isValidGranularity` from utils: membership in `VALID_GRANULARITIES`
(the non-string inputs of the type guard are outside this model's input
type and are rejected by the same membership test). -/
def isValidGranularity (value : String) : Bool :=
  VALID_GRANULARITIES.contains value

/-- `parseStringParam` from utils: a non-empty string passes through,
everything else (here: an absent value or the empty string) is `none`. -/
def parseStringParam (value : Option String) : Option String :=
  match value with
  | some s => if s.length > 0 then some s else none
  | none => none

/-- Whitespace skipped by `parseInt` before reading digits. -/
def isJsWhitespace (c : Char) : Bool :=
  c = ' ' || c = '\t' || c = '\n' || c = '\r'

def skipWs : List Char → List Char
  | [] => []
  | c :: cs => if isJsWhitespace c then skipWs cs else c :: cs

/-- Value of a (non-empty) digit run. -/
def digitsVal (ds : List Char) : Nat :=
  ds.foldl (fun acc c => acc * 10 + digitVal c) 0

/-- Read an optional sign followed by a maximal digit run; `none` when no
digit follows (`parseInt` returns `NaN` there). -/
def readSignedInt (cs : List Char) : Option Int :=
  match cs with
  | '-' :: rest =>
    let ds := rest.takeWhile isDigitChar
    if ds.isEmpty then none else some (-(digitsVal ds : Int))
  | '+' :: rest =>
    let ds := rest.takeWhile isDigitChar
    if ds.isEmpty then none else some (digitsVal ds : Int)
  | _ =>
    let ds := cs.takeWhile isDigitChar
    if ds.isEmpty then none else some (digitsVal ds : Int)

/-- Models `parseInt(s, 10)` with `NaN` mapped to `none`: skip leading
whitespace, then read an optional sign and a maximal decimal digit prefix.
(The IEEE-double rounding JavaScript applies to values at or above 2^53 is
not modelled; the theorems that depend on the parsed value carry an
explicit 2^53 bound.) -/
def jsParseInt (s : String) : Option Int :=
  readSignedInt (skipWs s.data)

/-- `parseIntParam` from utils: `undefined` (or any non-string) gives
`undefined`, otherwise `parseInt` with `NaN` mapped to `undefined`. -/
def parseIntParam (value : Option String) : Option Int :=
  match value with
  | some s => jsParseInt s
  | none => none

/-- JavaScript truthiness of an optional string (`undefined` and `""` are
falsy). -/
def jsTruthyStr (v : Option String) : Bool :=
  match v with
  | some s => !(s == "")
  | none => false

/-- JavaScript truthiness of an optional number (`undefined` and `0` are
falsy; `parseIntParam` never produces `NaN`). -/
def jsTruthyInt (v : Option Int) : Bool :=
  match v with
  | some n => !(n == 0)
  | none => false

/-- Lexicographic strict order on character lists (by code point). -/
def strLtChars : List Char → List Char → Bool
  | [], [] => false
  | [], _ :: _ => true
  | _ :: _, [] => false
  | a :: as, b :: bs => if a = b then strLtChars as bs else decide (a < b)

/-- Strict lexicographic string comparison, the order JavaScript's `>`
on strings and SQL's comparison of `YYYY-MM-DD` dates both follow (on
fixed-width ISO dates it coincides with calendar order). -/
def strLtB (a b : String) : Bool := strLtChars a.data b.data

/-- Non-strict lexicographic string comparison. -/
def strLeB (a b : String) : Bool := strLtB a b || a == b

/-- A positional query parameter value: the repository's `query` helper
takes `(string | number | ...)[]`. -/
inductive Param where
  | str (s : String)
  | int (n : Int)
deriving DecidableEq, Repr

/-- A built statement: the SQL text and its positional parameter list. -/
structure SqlStmt where
  sql : String
  params : List Param
deriving DecidableEq, Repr

/-- The running state of a query builder: the `conditions` array, the
`params` array and the `paramIndex` counter of the source. -/
structure QueryAcc where
  conditions : List String
  params : List Param
  paramIndex : Nat
deriving DecidableEq, Repr

/-- One `conditions.push(...); params.push(...); paramIndex++;` step. -/
def pushCond (acc : QueryAcc) (mk : Nat → String) (p : Param) : QueryAcc :=
  { conditions := acc.conditions ++ [mk acc.paramIndex],
    params := acc.params ++ [p],
    paramIndex := acc.paramIndex + 1 }

def placeholder (i : Nat) : String := "$" ++ toString i

/-- `WHERE ` + conditions joined with ` AND `, or empty. -/
def whereClauseOf (conditions : List String) : String :=
  if conditions.isEmpty then "" else "WHERE " ++ String.intercalate " AND " conditions

/-- `VALID_DATE_TRUNC_INTERVALS`: the set built from
`VALID_GRANULARITIES`. -/
def VALID_DATE_TRUNC_INTERVALS : List String := VALID_GRANULARITIES

/-- `getSafeDateTruncInterval` from queries: allowlist check before the
granularity is interpolated into the SQL text; `none` models the thrown
error. -/
def getSafeDateTruncInterval (granularity : String) : Option String :=
  if VALID_DATE_TRUNC_INTERVALS.contains granularity then some granularity else none

/-- `getTimeSeries`'s statement construction: conditional date / user /
group conditions (truthiness-tested), a join only when a group filter is
present, and the `DATE_TRUNC` interval spliced into the SQL text. -/
def getTimeSeriesStmt (granularity : String) (startDate endDate : Option String)
    (userId groupId : Option Int) : Option SqlStmt :=
  match getSafeDateTruncInterval granularity with
  | none => none
  | some truncFormat =>
    let acc0 : QueryAcc := ⟨[], [], 1⟩
    let acc1 := if jsTruthyStr startDate then
        pushCond acc0 (fun i => "s.date >= " ++ placeholder i) (Param.str (startDate.getD ""))
      else acc0
    let acc2 := if jsTruthyStr endDate then
        pushCond acc1 (fun i => "s.date <= " ++ placeholder i) (Param.str (endDate.getD ""))
      else acc1
    let acc3 := if jsTruthyInt userId then
        pushCond acc2 (fun i => "s.user_id = " ++ placeholder i) (Param.int (userId.getD 0))
      else acc2
    let acc4 := if jsTruthyInt groupId then
        pushCond acc3 (fun i => "ug.group_id = " ++ placeholder i) (Param.int (groupId.getD 0))
      else acc3
    let joinClause := if jsTruthyInt groupId then "JOIN user_groups ug ON s.user_id = ug.user_id" else ""
    some {
      sql := "SELECT DATE_TRUNC('" ++ truncFormat ++ "', s.date) as period, " ++
        "SUM(s.amount) as total_revenue, AVG(s.amount) as average_revenue, " ++
        "COUNT(*)::integer as sale_count, MIN(s.amount) as min_sale, MAX(s.amount) as max_sale " ++
        "FROM sales s " ++ joinClause ++ " " ++ whereClauseOf acc4.conditions ++
        " GROUP BY DATE_TRUNC('" ++ truncFormat ++ "', s.date) ORDER BY period ASC",
      params := acc4.params }

/-- `getUserPerformance`'s statement construction: truthiness-tested date
and user conditions, then `LIMIT`/`OFFSET` appended (and bound) whenever
the value is defined (`!== undefined`, so `0` counts as supplied). -/
def getUserPerformanceStmt (startDate endDate : Option String)
    (userId limit offset : Option Int) : SqlStmt :=
  let acc0 : QueryAcc := ⟨[], [], 1⟩
  let acc1 := if jsTruthyStr startDate then
      pushCond acc0 (fun i => "s.date >= " ++ placeholder i) (Param.str (startDate.getD ""))
    else acc0
  let acc2 := if jsTruthyStr endDate then
      pushCond acc1 (fun i => "s.date <= " ++ placeholder i) (Param.str (endDate.getD ""))
    else acc1
  let acc3 := if jsTruthyInt userId then
      pushCond acc2 (fun i => "u.id = " ++ placeholder i) (Param.int (userId.getD 0))
    else acc2
  let lim1 : String × List Param × Nat :=
    match limit with
    | some l => (" LIMIT " ++ placeholder acc3.paramIndex, acc3.params ++ [Param.int l], acc3.paramIndex + 1)
    | none => ("", acc3.params, acc3.paramIndex)
  let lim2 : String × List Param :=
    match offset with
    | some o => (lim1.1 ++ " OFFSET " ++ placeholder lim1.2.2, lim1.2.1 ++ [Param.int o])
    | none => (lim1.1, lim1.2.1)
  { sql := "SELECT user_id, user_name, role, total_revenue, average_revenue, sale_count, " ++
      "min_sale, max_sale, total_count FROM ( SELECT u.id as user_id, u.name as user_name, " ++
      "u.role, SUM(s.amount) as total_revenue, AVG(s.amount) as average_revenue, " ++
      "COUNT(*)::integer as sale_count, MIN(s.amount) as min_sale, MAX(s.amount) as max_sale, " ++
      "COUNT(*) OVER()::integer as total_count FROM users u JOIN sales s ON u.id = s.user_id " ++
      whereClauseOf acc3.conditions ++
      " GROUP BY u.id, u.name, u.role ) aggregated ORDER BY total_revenue DESC" ++ lim2.1,
    params := lim2.2 }

/-- `getGroupPerformance`'s statement construction. -/
def getGroupPerformanceStmt (startDate endDate : Option String)
    (groupId : Option Int) : SqlStmt :=
  let acc0 : QueryAcc := ⟨[], [], 1⟩
  let acc1 := if jsTruthyStr startDate then
      pushCond acc0 (fun i => "s.date >= " ++ placeholder i) (Param.str (startDate.getD ""))
    else acc0
  let acc2 := if jsTruthyStr endDate then
      pushCond acc1 (fun i => "s.date <= " ++ placeholder i) (Param.str (endDate.getD ""))
    else acc1
  let acc3 := if jsTruthyInt groupId then
      pushCond acc2 (fun i => "g.id = " ++ placeholder i) (Param.int (groupId.getD 0))
    else acc2
  { sql := "SELECT g.id as group_id, g.name as group_name, SUM(s.amount) as total_revenue, " ++
      "AVG(s.amount) as average_revenue, COUNT(*)::integer as sale_count, " ++
      "COUNT(DISTINCT ug.user_id)::integer as user_count, MIN(s.amount) as min_sale, " ++
      "MAX(s.amount) as max_sale FROM groups g JOIN user_groups ug ON g.id = ug.group_id " ++
      "JOIN sales s ON ug.user_id = s.user_id " ++ whereClauseOf acc3.conditions ++
      " GROUP BY g.id, g.name ORDER BY total_revenue DESC",
    params := acc3.params }

/-- `getLeaderboard`'s statement construction: conditional date conditions,
then the limit always pushed as the next positional parameter. -/
def getLeaderboardStmt (startDate endDate : Option String) (limit : Int) : SqlStmt :=
  let acc0 : QueryAcc := ⟨[], [], 1⟩
  let acc1 := if jsTruthyStr startDate then
      pushCond acc0 (fun i => "s.date >= " ++ placeholder i) (Param.str (startDate.getD ""))
    else acc0
  let acc2 := if jsTruthyStr endDate then
      pushCond acc1 (fun i => "s.date <= " ++ placeholder i) (Param.str (endDate.getD ""))
    else acc1
  { sql := "SELECT u.id as user_id, u.name as user_name, u.role, SUM(s.amount) as total_revenue, " ++
      "COUNT(*)::integer as sale_count FROM users u JOIN sales s ON u.id = s.user_id " ++
      whereClauseOf acc2.conditions ++
      " GROUP BY u.id, u.name, u.role ORDER BY total_revenue DESC LIMIT " ++
      placeholder acc2.paramIndex,
    params := acc2.params ++ [Param.int limit] }

/-- `getSummaryStats`'s statement construction. -/
def getSummaryStatsStmt (startDate endDate : Option String) : SqlStmt :=
  let acc0 : QueryAcc := ⟨[], [], 1⟩
  let acc1 := if jsTruthyStr startDate then
      pushCond acc0 (fun i => "date >= " ++ placeholder i) (Param.str (startDate.getD ""))
    else acc0
  let acc2 := if jsTruthyStr endDate then
      pushCond acc1 (fun i => "date <= " ++ placeholder i) (Param.str (endDate.getD ""))
    else acc1
  { sql := "SELECT SUM(amount) as total_revenue, COUNT(*)::integer as total_sales, " ++
      "AVG(amount) as average_sale, MIN(amount) as min_sale, MAX(amount) as max_sale, " ++
      "COUNT(DISTINCT user_id)::integer as unique_sellers, MIN(date) as first_sale_date, " ++
      "MAX(date) as last_sale_date FROM sales " ++ whereClauseOf acc2.conditions,
    params := acc2.params }

/-- `getPeriodComparison`'s statement: a fixed SQL text with the four
bounds as parameters ($1..$4). -/
def getPeriodComparisonStmt (currentStart currentEnd previousStart previousEnd : String) : SqlStmt :=
  { sql := "SELECT CASE WHEN date >= $1 AND date <= $2 THEN 'current' " ++
      "WHEN date >= $3 AND date <= $4 THEN 'previous' END as period_label, " ++
      "SUM(amount) as total_revenue, COUNT(*)::integer as sale_count, " ++
      "AVG(amount) as average_revenue FROM sales " ++
      "WHERE (date >= $1 AND date <= $2) OR (date >= $3 AND date <= $4) GROUP BY period_label",
    params := [Param.str currentStart, Param.str currentEnd,
               Param.str previousStart, Param.str previousEnd] }

/-- `formatDecimal` from utils: round to two decimal places (models
`Number.prototype.toFixed(2)` on exact decimal values, ties rounded up). -/
def formatDecimal (value : ℚ) : ℚ :=
  (round (value * 100) : ℚ) / 100

/-- A row of the `users` table. -/
structure UserRow where
  id : Int
  name : String
  role : String
deriving DecidableEq, Repr

/-- A row of the `sales` table; the date is kept as its `YYYY-MM-DD`
string, on which lexicographic order coincides with calendar order. -/
structure SaleRow where
  id : Int
  user_id : Int
  amount : Int
  date : String
deriving DecidableEq, Repr

/-- `users u JOIN sales s ON u.id = s.user_id`. -/
def joinUserSales (users : List UserRow) (sales : List SaleRow) : List (UserRow × SaleRow) :=
  users.flatMap (fun u => (sales.filter (fun s => s.user_id == u.id)).map (fun s => (u, s)))

/-- The conjunction of the WHERE conditions `getUserPerformance` builds: a
condition participates only when its filter is truthy-present, exactly as
in the statement construction. -/
def matchesUserPerfFilters (startDate endDate : Option String) (userId : Option Int)
    (p : UserRow × SaleRow) : Bool :=
  (if jsTruthyStr startDate then strLeB (startDate.getD "") p.2.date else true) &&
  (if jsTruthyStr endDate then strLeB p.2.date (endDate.getD "") else true) &&
  (if jsTruthyInt userId then p.1.id == userId.getD 0 else true)

/-- Distinct elements in order of first appearance (the grouping keys of
`GROUP BY`). -/
def firstDedup {α : Type} [DecidableEq α] : List α → List α
  | [] => []
  | a :: as => a :: (firstDedup as).filter (fun x => x ≠ a)

/-- Minimum of a list of integers, `0` on the empty list (which the
callers never hit: every group has at least one row). -/
def listMin : List Int → Int
  | [] => 0
  | a :: as => as.foldl min a

def listMax : List Int → Int
  | [] => 0
  | a :: as => as.foldl max a

def listSum (l : List Int) : Int := l.foldl (· + ·) 0

/-- A row of `getUserPerformance`'s subquery after grouping: the five
aggregates of the group's amounts plus the window count `COUNT(*) OVER()`
over all grouped rows. -/
structure UserPerfRow where
  user_id : Int
  user_name : String
  role : String
  total_revenue : Int
  average_revenue : ℚ
  sale_count : Nat
  min_sale : Int
  max_sale : Int
  total_count : Nat
deriving DecidableEq, Repr

/-- The grouped (pre-`ORDER BY`, pre-`LIMIT`) rows of `getUserPerformance`'s
subquery over given `users`/`sales` tables and filters. -/
def userPerfGroupRows (users : List UserRow) (sales : List SaleRow)
    (startDate endDate : Option String) (userId : Option Int) : List UserPerfRow :=
  let joined := (joinUserSales users sales).filter (matchesUserPerfFilters startDate endDate userId)
  let keys := firstDedup (joined.map (fun p => p.1))
  keys.map (fun u =>
    let amounts := (joined.filter (fun p => p.1 == u)).map (fun p => p.2.amount)
    { user_id := u.id
      user_name := u.name
      role := u.role
      total_revenue := listSum amounts
      average_revenue := (listSum amounts : ℚ) / (amounts.length : ℚ)
      sale_count := amounts.length
      min_sale := listMin amounts
      max_sale := listMax amounts
      total_count := keys.length })

/-- Stable insertion for descending order by `total_revenue`
(`ORDER BY total_revenue DESC`; ties keep their relative order, matching
one admissible engine order). -/
def insertByRevDesc (x : UserPerfRow) : List UserPerfRow → List UserPerfRow
  | [] => [x]
  | y :: ys => if y.total_revenue < x.total_revenue then x :: y :: ys
               else y :: insertByRevDesc x ys

def sortByRevDesc (l : List UserPerfRow) : List UserPerfRow :=
  l.foldr insertByRevDesc []

/-- `LIMIT`/`OFFSET` applied to the ordered rows: the offset is skipped
first, then the limit caps the page (each only when supplied). -/
def applyPage (limit offset : Option Int) (l : List UserPerfRow) : List UserPerfRow :=
  let afterOffset := match offset with
    | some o => l.drop o.toNat
    | none => l
  match limit with
  | some k => afterOffset.take k.toNat
  | none => afterOffset

/-- A formatted `UserPerformance` element of the response. -/
structure UserPerformance where
  user_id : Int
  user_name : String
  role : String
  total_revenue : Int
  average_revenue : ℚ
  sale_count : Nat
  min_sale : Int
  max_sale : Int
deriving DecidableEq, Repr

/-- The row-to-response mapping of `getUserPerformance` (the numeric
strings of the wire format are already numbers here). -/
def toUserPerformance (r : UserPerfRow) : UserPerformance :=
  { user_id := r.user_id
    user_name := r.user_name
    role := r.role
    total_revenue := r.total_revenue
    average_revenue := formatDecimal r.average_revenue
    sale_count := r.sale_count
    min_sale := r.min_sale
    max_sale := r.max_sale }

structure UserPerfResult where
  data : List UserPerformance
  total : Nat
deriving DecidableEq, Repr

/-- The meaning of `getUserPerformance` over concrete tables: evaluate the
built statement (filter, group, window count, sort descending, page) and
then take `total` from the first returned row's `total_count`, or `0` when
no row came back (`result.rows.length > 0 ? result.rows[0].total_count : 0`). -/
def getUserPerformanceEval (users : List UserRow) (sales : List SaleRow)
    (startDate endDate : Option String) (userId limit offset : Option Int) : UserPerfResult :=
  let rows := userPerfGroupRows users sales startDate endDate userId
  let page := applyPage limit offset (sortByRevDesc rows)
  { data := page.map toUserPerformance
    total := match page with
      | [] => 0
      | r :: _ => r.total_count }

/-- Membership in the current period (`date >= $1 AND date <= $2`, the
first CASE arm). -/
def inCurrentPeriod (currentStart currentEnd : String) (s : SaleRow) : Bool :=
  strLeB currentStart s.date && strLeB s.date currentEnd

/-- Labelled `'previous'`: in the previous range but not already taken by
the `'current'` CASE arm. -/
def inPreviousPeriod (currentStart currentEnd previousStart previousEnd : String)
    (s : SaleRow) : Bool :=
  !(inCurrentPeriod currentStart currentEnd s) &&
  (strLeB previousStart s.date && strLeB s.date previousEnd)

/-- One period's metrics in the comparison response. -/
structure PeriodMetrics where
  period : String
  total_revenue : Int
  sale_count : Nat
  average_revenue : ℚ
deriving DecidableEq, Repr

structure ComparisonChange where
  revenue_change : Int
  revenue_change_pct : ℚ
  count_change : Int
  count_change_pct : ℚ
deriving DecidableEq, Repr

structure PeriodComparisonResult where
  current : PeriodMetrics
  previous : PeriodMetrics
  change : ComparisonChange
deriving DecidableEq, Repr

/-- The metrics object `getPeriodComparison` builds for one period: the
grouped row's aggregates when the period has sales, zeroes otherwise
(`currentData ? ... : 0`). -/
def periodMetricsOf (label : String) (rows : List SaleRow) : PeriodMetrics :=
  match rows with
  | [] => { period := label, total_revenue := 0, sale_count := 0, average_revenue := 0 }
  | _ =>
    let amounts := rows.map (fun s => s.amount)
    { period := label
      total_revenue := listSum amounts
      sale_count := amounts.length
      average_revenue := formatDecimal ((listSum amounts : ℚ) / (amounts.length : ℚ)) }

/-- The meaning of `getPeriodComparison` over a concrete `sales` table:
the single grouped query yields at most one row per label; a label with no
sales yields no row, and the caller substitutes zero-valued metrics. -/
def getPeriodComparisonEval (sales : List SaleRow)
    (currentStart currentEnd previousStart previousEnd : String) : PeriodComparisonResult :=
  let currentRows := sales.filter (inCurrentPeriod currentStart currentEnd)
  let previousRows := sales.filter (inPreviousPeriod currentStart currentEnd previousStart previousEnd)
  let current := periodMetricsOf (currentStart ++ " to " ++ currentEnd) currentRows
  let previous := periodMetricsOf (previousStart ++ " to " ++ previousEnd) previousRows
  let revenueChange := current.total_revenue - previous.total_revenue
  let countChange := (current.sale_count : Int) - (previous.sale_count : Int)
  { current := current
    previous := previous
    change :=
      { revenue_change := revenueChange
        revenue_change_pct :=
          if 0 < previous.total_revenue then
            formatDecimal ((revenueChange : ℚ) / (previous.total_revenue : ℚ) * 100)
          else 0
        count_change := countChange
        count_change_pct :=
          if 0 < previous.sale_count then
            formatDecimal ((countChange : ℚ) / (previous.sale_count : ℚ) * 100)
          else 0 } }

/-- One bucket of the time-series response. -/
structure TimeSeriesDataPoint where
  period : String
  total_revenue : Int
  average_revenue : ℚ
  sale_count : Nat
  min_sale : Int
  max_sale : Int
deriving DecidableEq, Repr

/-- `meta` of the time-series response. -/
structure TsMeta where
  total : Nat
  periodStart : String
  periodEnd : String
deriving DecidableEq, Repr

/-- Outcome of the timeseries handler: an error response, or a success
response together with the granularity the handler passed to
`getTimeSeries`. -/
inductive TsOutcome where
  | err (status : Nat) (code : String)
  | ok (granularity : String) (data : List TimeSeriesDataPoint) (meta : TsMeta)
deriving DecidableEq, Repr

/-- `data.length > 0 ? data[0].period : ''`. -/
def headPeriodOf (l : List TimeSeriesDataPoint) : String :=
  match l with
  | [] => ""
  | p :: _ => p.period

/-- `data.length > 0 ? data[data.length - 1].period : ''`. -/
def lastPeriodOf (l : List TimeSeriesDataPoint) : String :=
  match l.getLast? with
  | some p => p.period
  | none => ""

/-- The timeseries handler after the granularity check: the two date
checks, the range check, then the success envelope with
`meta.total = data.length` and the `startDate || (data.length > 0 ?
data[0].period : '')` fallbacks. -/
def timeseriesAfterGranularity (granularity : String) (startDate endDate : Option String)
    (dbData : List TimeSeriesDataPoint) : TsOutcome :=
  if jsTruthyStr startDate && !isValidDate (startDate.getD "") then
    TsOutcome.err 400 "INVALID_DATE"
  else if jsTruthyStr endDate && !isValidDate (endDate.getD "") then
    TsOutcome.err 400 "INVALID_DATE"
  else if jsTruthyStr startDate && jsTruthyStr endDate &&
      strLtB (endDate.getD "") (startDate.getD "") then
    TsOutcome.err 400 "INVALID_DATE_RANGE"
  else
    TsOutcome.ok granularity dbData
      { total := dbData.length
        periodStart :=
          if jsTruthyStr startDate then startDate.getD "" else headPeriodOf dbData
        periodEnd :=
          if jsTruthyStr endDate then endDate.getD "" else lastPeriodOf dbData }

/-- `GET /api/sales/timeseries`: parameter parsing, the granularity
default-and-check, the two date checks, the range check, then the success
envelope.  `dbData` stands for the rows the awaited `getTimeSeries` call
returns. -/
def timeseriesHandler (rawGran rawStart rawEnd rawUser rawGroup : Option String)
    (dbData : List TimeSeriesDataPoint) : TsOutcome :=
  let granularityParam := parseStringParam rawGran
  let startDate := parseStringParam rawStart
  let endDate := parseStringParam rawEnd
  let _userId := parseIntParam rawUser
  let _groupId := parseIntParam rawGroup
  let granularity := match granularityParam with
    | some g => if isValidGranularity g then g else "month"
    | none => "month"
  match granularityParam with
  | some g =>
    if !isValidGranularity g then TsOutcome.err 400 "INVALID_GRANULARITY"
    else timeseriesAfterGranularity granularity startDate endDate dbData
  | none => timeseriesAfterGranularity granularity startDate endDate dbData

/-- `meta` of the users response. -/
structure UsersMeta where
  total : Nat
  limit : Option Int
  offset : Option Int
deriving DecidableEq, Repr

inductive UsersOutcome where
  | err (status : Nat) (code : String)
  | ok (data : List UserPerformance) (meta : UsersMeta)
deriving DecidableEq, Repr

/-- `GET /api/sales/users`: date checks, range check, the limit range
check (`limit !== undefined && (limit < MIN_LIMIT || limit > MAX_LIMIT)`),
the offset check (`offset !== undefined && offset < 0`), then the success
envelope.  `db` stands for the `{ data, total }` value the awaited
`getUserPerformance` call returns. -/
def usersHandler (rawStart rawEnd rawUser rawLimit rawOffset : Option String)
    (db : List UserPerformance × Nat) : UsersOutcome :=
  let startDate := parseStringParam rawStart
  let endDate := parseStringParam rawEnd
  let _userId := parseIntParam rawUser
  let limit := parseIntParam rawLimit
  let offset := parseIntParam rawOffset
  if jsTruthyStr startDate && !isValidDate (startDate.getD "") then
    UsersOutcome.err 400 "INVALID_DATE"
  else if jsTruthyStr endDate && !isValidDate (endDate.getD "") then
    UsersOutcome.err 400 "INVALID_DATE"
  else if jsTruthyStr startDate && jsTruthyStr endDate &&
      strLtB (endDate.getD "") (startDate.getD "") then
    UsersOutcome.err 400 "INVALID_DATE_RANGE"
  else if limit.isSome ∧
      (limit.getD 0 < PAGINATION_MIN_LIMIT ∨ PAGINATION_MAX_LIMIT < limit.getD 0) then
    UsersOutcome.err 400 "INVALID_LIMIT"
  else if offset.isSome ∧ offset.getD 0 < 0 then
    UsersOutcome.err 400 "INVALID_OFFSET"
  else
    UsersOutcome.ok db.1 { total := db.2, limit := limit, offset := offset }

/-- A row of the leaderboard response. -/
structure LeaderboardEntry where
  rank : Nat
  user_id : Int
  user_name : String
  role : String
  total_revenue : Int
  sale_count : Nat
deriving DecidableEq, Repr

/-- Outcome of the leaderboard handler; `ok` records the limit the
handler passed to `getLeaderboard`. -/
inductive LbOutcome where
  | err (status : Nat) (code : String)
  | ok (limit : Int) (data : List LeaderboardEntry) (total : Nat)
deriving DecidableEq, Repr

/-- `GET /api/sales/leaderboard`: `limit = parseIntParam(...) ?? DEFAULT`,
date checks, range check, the limit range check, then the success
envelope.  `db` stands for the rows the awaited `getLeaderboard` call
returns. -/
def leaderboardHandler (rawStart rawEnd rawLimit : Option String)
    (db : List LeaderboardEntry) : LbOutcome :=
  let startDate := parseStringParam rawStart
  let endDate := parseStringParam rawEnd
  let limit := (parseIntParam rawLimit).getD PAGINATION_DEFAULT_LIMIT
  if jsTruthyStr startDate && !isValidDate (startDate.getD "") then
    LbOutcome.err 400 "INVALID_DATE"
  else if jsTruthyStr endDate && !isValidDate (endDate.getD "") then
    LbOutcome.err 400 "INVALID_DATE"
  else if jsTruthyStr startDate && jsTruthyStr endDate &&
      strLtB (endDate.getD "") (startDate.getD "") then
    LbOutcome.err 400 "INVALID_DATE_RANGE"
  else if limit < PAGINATION_MIN_LIMIT ∨ PAGINATION_MAX_LIMIT < limit then
    LbOutcome.err 400 "INVALID_LIMIT"
  else
    LbOutcome.ok limit db db.length

/-- Outcome of the compare handler; `ok` records the four validated dates
the handler passed to `getPeriodComparison`. -/
inductive CompareOutcome where
  | err (status : Nat) (code : String)
  | ok (currentStart currentEnd previousStart previousEnd : String)
deriving DecidableEq, Repr

/-- The date-format loop of the compare handler: the first of the four
dates (in order) that fails `isValidDate` produces the error. -/
def compareDatesLoop (currentStart currentEnd previousStart previousEnd : String) : CompareOutcome :=
  if !isValidDate currentStart then CompareOutcome.err 400 "INVALID_DATE"
  else if !isValidDate currentEnd then CompareOutcome.err 400 "INVALID_DATE"
  else if !isValidDate previousStart then CompareOutcome.err 400 "INVALID_DATE"
  else if !isValidDate previousEnd then CompareOutcome.err 400 "INVALID_DATE"
  else CompareOutcome.ok currentStart currentEnd previousStart previousEnd

/-- `GET /api/sales/compare`: the presence check of all four bounds
(`!currentStart || !currentEnd || !previousStart || !previousEnd`) runs
first, then the per-date format loop. -/
def compareHandler (rawCurStart rawCurEnd rawPrevStart rawPrevEnd : Option String) : CompareOutcome :=
  let currentStart := parseStringParam rawCurStart
  let currentEnd := parseStringParam rawCurEnd
  let previousStart := parseStringParam rawPrevStart
  let previousEnd := parseStringParam rawPrevEnd
  if !jsTruthyStr currentStart || !jsTruthyStr currentEnd ||
      !jsTruthyStr previousStart || !jsTruthyStr previousEnd then
    CompareOutcome.err 400 "MISSING_PARAMS"
  else
    compareDatesLoop (currentStart.getD "") (currentEnd.getD "")
      (previousStart.getD "") (previousEnd.getD "")

/-! ## Helper lemmas -/

theorem String.length_pos_of_ne_empty {s : String} (h : s ≠ "") : 0 < s.length := by
  cases s with
  | mk data =>
    cases data with
    | nil => exact absurd rfl h
    | cons c cs => simp [String.length]

theorem parseStringParam_eq_some {r : Option String} {s : String}
    (h : parseStringParam r = some s) : s ≠ "" := by
  cases r with
  | none => exact absurd h (by simp [parseStringParam])
  | some t =>
    simp only [parseStringParam] at h
    split at h
    · next ht =>
      cases h
      intro he
      subst he
      simp at ht
    · exact absurd h (by simp)

theorem parseStringParam_some_of_ne_empty {s : String} (h : s ≠ "") :
    parseStringParam (some s) = some s := by
  simp [parseStringParam, String.length_pos_of_ne_empty h]

theorem jsTruthyStr_parseStringParam (r : Option String) :
    jsTruthyStr (parseStringParam r) = (parseStringParam r).isSome := by
  cases hr : parseStringParam r with
  | none => rfl
  | some s =>
    have hne := parseStringParam_eq_some hr
    simp [jsTruthyStr, hne]

theorem parseIntParam_none : parseIntParam (none : Option String) = none := rfl

/-- The value of an optional string, or a fallback when it is absent. -/
def orElseStr (v : Option String) (fb : String) : String :=
  match v with
  | some s => s
  | none => fb

/-- The `x || fallback` idiom on a parsed string parameter picks the
parameter exactly when parsing produced a value (a parsed value is never
the empty string). -/
theorem truthy_fallback (r : Option String) (fb : String) :
    (if jsTruthyStr (parseStringParam r) then (parseStringParam r).getD "" else fb)
      = orElseStr (parseStringParam r) fb := by
  cases hr : parseStringParam r with
  | none => simp [jsTruthyStr, orElseStr]
  | some s =>
    have hne := parseStringParam_eq_some hr
    simp [jsTruthyStr, hne, orElseStr]

/-! ## C1: date validation -/

/-- C1: the claim that `isValidDate` accepts exactly the
`^\d{4}-\d{2}-\d{2}$`-shaped, calendar-valid dates fails on the code: the
listed malformed inputs are indeed rejected, but `2021-02-29` — not a
calendar date, 2021 being no leap year — is accepted, because the
JavaScript `Date` parser rolls a day up to 31 over into the next month
instead of yielding `NaN`. -/
theorem isValidDate_accepts_feb29_nonleap :
    isValidDate "2021-02-29" = true ∧ calendarValid 2021 2 29 = false ∧
    isValidDate "2021-13-01" = false ∧ isValidDate "2021-00-01" = false ∧
    isValidDate "2021/01/01" = false ∧ isValidDate "2021-1-1" = false ∧
    isValidDate "" = false ∧ isValidDate "2021-01-01" = true := by decide

/-! ## C5: compare endpoint's missing-parameter check -/

/-- C5: on the compare endpoint, if any of the four date bounds is absent
after parsing, the handler answers 400 `MISSING_PARAMS` — regardless of
the other bounds' contents, because the presence check precedes the
per-date format loop. -/
theorem compareHandler_missing_params (rcs rce rps rpe : Option String)
    (h : parseStringParam rcs = none ∨ parseStringParam rce = none ∨
         parseStringParam rps = none ∨ parseStringParam rpe = none) :
    compareHandler rcs rce rps rpe = CompareOutcome.err 400 "MISSING_PARAMS" := by
  rcases h with h | h | h | h <;> simp [compareHandler, h, jsTruthyStr]

/-- Witness for C5: `current_end` absent while `previous_start` is
malformed still gives `MISSING_PARAMS`. -/
theorem compareHandler_missing_params_witness :
    compareHandler (some "2021-07-01") none (some "not-a-date") (some "2021-06-30")
      = CompareOutcome.err 400 "MISSING_PARAMS" :=
  compareHandler_missing_params _ _ _ _ (Or.inr (Or.inl rfl))

/-! ## C6: granularity validation -/

/-- C6: granularity validation accepts exactly the five strings `day`,
`week`, `month`, `quarter`, `year` (case-sensitively); the timeseries
handler defaults an absent granularity to `month`, and any other supplied
non-empty value is answered 400 `INVALID_GRANULARITY`. -/
theorem granularity_validation :
    (∀ s : String, isValidGranularity s = true ↔
      (s = "day" ∨ s = "week" ∨ s = "month" ∨ s = "quarter" ∨ s = "year")) ∧
    (∀ (rs re ru rg : Option String) (db : List TimeSeriesDataPoint)
        (g : String) (d : List TimeSeriesDataPoint) (m : TsMeta),
      timeseriesHandler none rs re ru rg db = TsOutcome.ok g d m → g = "month") ∧
    (∀ (s : String) (rs re ru rg : Option String) (db : List TimeSeriesDataPoint),
      s ≠ "" → isValidGranularity s = false →
      timeseriesHandler (some s) rs re ru rg db = TsOutcome.err 400 "INVALID_GRANULARITY") := by
  refine ⟨?_, ?_, ?_⟩
  · intro s
    simp [isValidGranularity, VALID_GRANULARITIES, List.contains, List.elem_cons,
      Bool.or_eq_true, beq_iff_eq]
  · intro rs re ru rg db g d m h
    simp only [timeseriesHandler, parseStringParam] at h
    unfold timeseriesAfterGranularity at h
    split at h
    · exact absurd h (by simp)
    split at h
    · exact absurd h (by simp)
    split at h
    · exact absurd h (by simp)
    · rw [TsOutcome.ok.injEq] at h
      exact h.1.symm
  · intro s rs re ru rg db hne hval
    have hlen := String.length_pos_of_ne_empty hne
    simp [timeseriesHandler, parseStringParam, hlen, hval]

/-- Witness for C6: `hourly` is rejected with `INVALID_GRANULARITY`, and
the no-parameter request runs with granularity `month`. -/
theorem granularity_validation_witness :
    timeseriesHandler (some "hourly") none none none none []
        = TsOutcome.err 400 "INVALID_GRANULARITY" ∧
    "month" = "month" := by
  refine ⟨granularity_validation.2.2 "hourly" none none none none [] (by decide) (by decide), ?_⟩
  exact granularity_validation.2.1 none none none none [] "month" [] ⟨0, "", ""⟩ rfl

/-! ## C7: pagination validation and leaderboard default -/

/-- C7: on the users endpoint a supplied limit passes validation exactly
when it lies in `[1, 100]`, a violation is answered 400 `INVALID_LIMIT`;
a supplied offset must be nonnegative, a violation is answered 400
`INVALID_OFFSET`; and the leaderboard handler uses limit 10 when none is
supplied. -/
theorem pagination_validation :
    (∀ (rl : Option String) (l : Int) (db : List UserPerformance × Nat),
      parseIntParam rl = some l → PAGINATION_MIN_LIMIT ≤ l → l ≤ PAGINATION_MAX_LIMIT →
      usersHandler none none none rl none db
        = UsersOutcome.ok db.1 { total := db.2, limit := some l, offset := none }) ∧
    (∀ (rl : Option String) (l : Int) (db : List UserPerformance × Nat),
      parseIntParam rl = some l → (l < PAGINATION_MIN_LIMIT ∨ PAGINATION_MAX_LIMIT < l) →
      usersHandler none none none rl none db = UsersOutcome.err 400 "INVALID_LIMIT") ∧
    (∀ (ro : Option String) (o : Int) (db : List UserPerformance × Nat),
      parseIntParam ro = some o → 0 ≤ o →
      usersHandler none none none none ro db
        = UsersOutcome.ok db.1 { total := db.2, limit := none, offset := some o }) ∧
    (∀ (ro : Option String) (o : Int) (db : List UserPerformance × Nat),
      parseIntParam ro = some o → o < 0 →
      usersHandler none none none none ro db = UsersOutcome.err 400 "INVALID_OFFSET") ∧
    (∀ db : List LeaderboardEntry,
      leaderboardHandler none none none db = LbOutcome.ok 10 db db.length) := by
  refine ⟨?_, ?_, ?_, ?_, ?_⟩
  · intro rl l db hl h1 h2
    simp only [PAGINATION_MIN_LIMIT, PAGINATION_MAX_LIMIT] at h1 h2
    simp [usersHandler, parseStringParam, jsTruthyStr, hl, parseIntParam_none,
      PAGINATION_MIN_LIMIT, PAGINATION_MAX_LIMIT, show ¬(l < 1 ∨ 100 < l) from by omega]
  · intro rl l db hl h
    simp only [PAGINATION_MIN_LIMIT, PAGINATION_MAX_LIMIT] at h
    simp [usersHandler, parseStringParam, jsTruthyStr, hl, parseIntParam_none,
      PAGINATION_MIN_LIMIT, PAGINATION_MAX_LIMIT, h]
  · intro ro o db ho h0
    simp [usersHandler, parseStringParam, jsTruthyStr, ho, parseIntParam_none,
      show ¬(o < 0) from by omega]
  · intro ro o db ho h0
    simp [usersHandler, parseStringParam, jsTruthyStr, ho, parseIntParam_none, h0]
  · intro db
    simp [leaderboardHandler, parseStringParam, jsTruthyStr, parseIntParam_none,
      PAGINATION_DEFAULT_LIMIT, PAGINATION_MIN_LIMIT, PAGINATION_MAX_LIMIT]

/-- Witness for C7: the boundary values 1 and 100 pass, 0 and 101 fail
with `INVALID_LIMIT`, offset 0 passes, offset -1 fails with
`INVALID_OFFSET`. -/
theorem pagination_validation_witness :
    usersHandler none none none (some "1") none ([], 0)
        = UsersOutcome.ok [] { total := 0, limit := some 1, offset := none } ∧
    usersHandler none none none (some "100") none ([], 0)
        = UsersOutcome.ok [] { total := 0, limit := some 100, offset := none } ∧
    usersHandler none none none (some "0") none ([], 0)
        = UsersOutcome.err 400 "INVALID_LIMIT" ∧
    usersHandler none none none (some "101") none ([], 0)
        = UsersOutcome.err 400 "INVALID_LIMIT" ∧
    usersHandler none none none none (some "0") ([], 0)
        = UsersOutcome.ok [] { total := 0, limit := none, offset := some 0 } ∧
    usersHandler none none none none (some "-1") ([], 0)
        = UsersOutcome.err 400 "INVALID_OFFSET" ∧
    leaderboardHandler none none none [] = LbOutcome.ok 10 [] 0 :=
  ⟨pagination_validation.1 (some "1") 1 ([], 0) (by decide) (by decide) (by decide),
   pagination_validation.1 (some "100") 100 ([], 0) (by decide) (by decide) (by decide),
   pagination_validation.2.1 (some "0") 0 ([], 0) (by decide) (Or.inl (by decide)),
   pagination_validation.2.1 (some "101") 101 ([], 0) (by decide) (Or.inr (by decide)),
   pagination_validation.2.2.1 (some "0") 0 ([], 0) (by decide) (by decide),
   pagination_validation.2.2.2.1 (some "-1") (-1) ([], 0) (by decide) (by decide),
   pagination_validation.2.2.2.2 []⟩

/-! ## C8: timeseries response meta -/

theorem timeseriesAfterGranularity_ok {gr : String} {sd ed : Option String}
    {db d : List TimeSeriesDataPoint} {g : String} {m : TsMeta}
    (h : timeseriesAfterGranularity gr sd ed db = TsOutcome.ok g d m) :
    g = gr ∧ d = db ∧
    m = { total := db.length
          periodStart := if jsTruthyStr sd then sd.getD "" else headPeriodOf db
          periodEnd := if jsTruthyStr ed then ed.getD "" else lastPeriodOf db } := by
  unfold timeseriesAfterGranularity at h
  split at h
  · exact absurd h (by simp)
  split at h
  · exact absurd h (by simp)
  split at h
  · exact absurd h (by simp)
  · rw [TsOutcome.ok.injEq] at h
    exact ⟨h.1.symm, h.2.1.symm, h.2.2.symm⟩

/-- C8: every success response of the timeseries handler satisfies
`meta.total = data.length`; `meta.period.start` is the parsed caller
`start_date` when present, else the first bucket's period when data is
non-empty, else the empty string; `meta.period.end` symmetrically uses
`end_date`, the last bucket, or the empty string. -/
theorem timeseries_meta_contract (rawGran rawStart rawEnd rawUser rawGroup : Option String)
    (dbData : List TimeSeriesDataPoint) (g : String) (d : List TimeSeriesDataPoint) (m : TsMeta)
    (h : timeseriesHandler rawGran rawStart rawEnd rawUser rawGroup dbData = TsOutcome.ok g d m) :
    m.total = d.length ∧
    m.periodStart = orElseStr (parseStringParam rawStart) (headPeriodOf d) ∧
    m.periodEnd = orElseStr (parseStringParam rawEnd) (lastPeriodOf d) := by
  have hAfter : ∃ gr, timeseriesAfterGranularity gr (parseStringParam rawStart)
      (parseStringParam rawEnd) dbData = TsOutcome.ok g d m := by
    simp only [timeseriesHandler] at h
    split at h
    · split at h
      · exact absurd h (by simp)
      · exact ⟨_, h⟩
    · exact ⟨_, h⟩
  obtain ⟨gr, hgr⟩ := hAfter
  obtain ⟨-, hd, hm⟩ := timeseriesAfterGranularity_ok hgr
  subst hd
  rw [hm]
  refine ⟨rfl, ?_, ?_⟩
  · exact truthy_fallback rawStart _
  · exact truthy_fallback rawEnd _

/-- Witness for C8 at a concrete request: no explicit bounds, one bucket. -/
theorem timeseries_meta_contract_witness :
    (1 : Nat) = [({ period := "2021-01-01", total_revenue := 5, average_revenue := 5,
                    sale_count := 1, min_sale := 5, max_sale := 5 } : TimeSeriesDataPoint)].length ∧
    "2021-01-01" = orElseStr (parseStringParam none)
      (headPeriodOf [{ period := "2021-01-01", total_revenue := 5, average_revenue := 5,
                       sale_count := 1, min_sale := 5, max_sale := 5 }]) ∧
    "2021-01-01" = orElseStr (parseStringParam none)
      (lastPeriodOf [{ period := "2021-01-01", total_revenue := 5, average_revenue := 5,
                       sale_count := 1, min_sale := 5, max_sale := 5 }]) :=
  timeseries_meta_contract none none none none none
    [{ period := "2021-01-01", total_revenue := 5, average_revenue := 5,
       sale_count := 1, min_sale := 5, max_sale := 5 }]
    "month"
    [{ period := "2021-01-01", total_revenue := 5, average_revenue := 5,
       sale_count := 1, min_sale := 5, max_sale := 5 }]
    { total := 1, periodStart := "2021-01-01", periodEnd := "2021-01-01" }
    rfl

/-! ## C4: period comparison zero-fill -/

/-- C4: when a period's date range contains no sales, `getPeriodComparison`
still returns that period's object, with zero total revenue, zero sale
count and zero average revenue. -/
theorem periodComparison_zero_fill (sales : List SaleRow)
    (currentStart currentEnd previousStart previousEnd : String) :
    (sales.filter (inCurrentPeriod currentStart currentEnd) = [] →
      (getPeriodComparisonEval sales currentStart currentEnd previousStart previousEnd).current
        = { period := currentStart ++ " to " ++ currentEnd,
            total_revenue := 0, sale_count := 0, average_revenue := 0 }) ∧
    (sales.filter (inPreviousPeriod currentStart currentEnd previousStart previousEnd) = [] →
      (getPeriodComparisonEval sales currentStart currentEnd previousStart previousEnd).previous
        = { period := previousStart ++ " to " ++ previousEnd,
            total_revenue := 0, sale_count := 0, average_revenue := 0 }) := by
  constructor
  · intro h
    simp [getPeriodComparisonEval, h, periodMetricsOf]
  · intro h
    simp [getPeriodComparisonEval, h, periodMetricsOf]

/-- Witness for C4: a sale set entirely inside the current period leaves
the previous period empty, and its metrics are all zero. -/
theorem periodComparison_zero_fill_witness :
    (getPeriodComparisonEval [{ id := 1, user_id := 1, amount := 700, date := "2021-08-01" }]
        "2021-07-01" "2021-12-31" "2021-01-01" "2021-06-30").previous
      = { period := "2021-01-01" ++ " to " ++ "2021-06-30",
          total_revenue := 0, sale_count := 0, average_revenue := 0 } :=
  (periodComparison_zero_fill
    [{ id := 1, user_id := 1, amount := 700, date := "2021-08-01" }]
    "2021-07-01" "2021-12-31" "2021-01-01" "2021-06-30").2 (by decide)

/-! ## C9: id 0 filters contribute nothing -/

/-- C9: `user_id=0` / `group_id=0` parse to the number 0, but the query
builders test the filters by truthiness, so an id-0 filter contributes no
condition and no bound parameter: the built statement is identical to the
one for the same request without that filter. -/
theorem zero_id_filter_ignored :
    parseIntParam (some "0") = some 0 ∧
    (∀ (g : String) (sd ed : Option String),
      getTimeSeriesStmt g sd ed (some 0) (some 0) = getTimeSeriesStmt g sd ed none none) ∧
    (∀ (sd ed : Option String) (l o : Option Int),
      getUserPerformanceStmt sd ed (some 0) l o = getUserPerformanceStmt sd ed none l o) ∧
    (∀ sd ed : Option String,
      getGroupPerformanceStmt sd ed (some 0) = getGroupPerformanceStmt sd ed none) :=
  ⟨rfl, fun _ _ _ => rfl, fun _ _ _ _ => rfl, fun _ _ => rfl⟩

/-! ## C10: parseIntParam truncates decimal strings -/

/-- The decimal-integer prefix of a string: an optional sign followed by a
maximal non-empty digit run, read at position 0. -/
def decIntPrefix (s : String) : Option Int := readSignedInt s.data

theorem readSignedInt_some_skipWs {cs : List Char} {v : Int}
    (h : readSignedInt cs = some v) : skipWs cs = cs := by
  match cs with
  | [] => simp [readSignedInt] at h
  | c :: rest =>
    have hw : isJsWhitespace c = false := by
      by_contra hw
      rw [Bool.not_eq_false] at hw
      have hc : c = ' ' ∨ c = '\t' ∨ c = '\n' ∨ c = '\r' := by
        have := hw
        simp [isJsWhitespace] at this
        tauto
      rcases hc with rfl | rfl | rfl | rfl <;>
        simp [readSignedInt, List.takeWhile, isDigitChar] at h
    simp [skipWs, hw]

/-- C10, main direction: a string that begins with a decimal integer
parses to exactly that integer prefix (within the exactly-representable
range). -/
theorem parseIntParam_prefix_helper (s : String) (v : Int)
    (h : decIntPrefix s = some v) : parseIntParam (some s) = some v := by
  simp only [parseIntParam, jsParseInt, readSignedInt_some_skipWs h]
  exact h

/-- C10: `parseIntParam` returns the decimal-integer prefix of any string
that begins with one (so `10.5 ↦ 10`, `3.9 ↦ 3`, `-5 ↦ -5`), is absent
only for strings with no such prefix, and consequently `limit=10.5`
passes validation as 10 instead of being rejected.  (The JavaScript
side rounds results at or above 2^53 to doubles; the prefix direction is
therefore stated under a 2^53 bound.) -/
theorem parseIntParam_truncates :
    (∀ (s : String) (v : Int), decIntPrefix s = some v → v.natAbs < 2 ^ 53 →
      parseIntParam (some s) = some v) ∧
    (∀ s : String, parseIntParam (some s) = none → decIntPrefix s = none) ∧
    parseIntParam (some "10.5") = some 10 ∧
    parseIntParam (some "3.9") = some 3 ∧
    parseIntParam (some "-5") = some (-5) ∧
    usersHandler none none none (some "10.5") none ([], 0)
      = UsersOutcome.ok [] { total := 0, limit := some 10, offset := none } := by
  refine ⟨fun s v h _ => parseIntParam_prefix_helper s v h, ?_, by decide, by decide, by decide, ?_⟩
  · intro s h
    cases hd : decIntPrefix s with
    | none => rfl
    | some v => rw [parseIntParam_prefix_helper s v hd] at h; cases h
  · rfl

/-- Witness for C10: `10.5` begins with the decimal integer 10 and parses
to 10. -/
theorem parseIntParam_truncates_witness :
    parseIntParam (some "10.5") = some 10 :=
  parseIntParam_truncates.1 "10.5" 10 (by decide) (by decide)

/-! ## C3: user-performance pagination total -/

theorem total_count_of_mem_groupRows {users : List UserRow} {sales : List SaleRow}
    {sd ed : Option String} {uid : Option Int} {r : UserPerfRow}
    (h : r ∈ userPerfGroupRows users sales sd ed uid) :
    r.total_count = (userPerfGroupRows users sales sd ed uid).length := by
  simp only [userPerfGroupRows] at h ⊢
  rw [List.length_map]
  rw [List.mem_map] at h
  obtain ⟨k, -, rfl⟩ := h
  rfl

theorem mem_insertByRevDesc {a x : UserPerfRow} {l : List UserPerfRow} :
    a ∈ insertByRevDesc x l ↔ a = x ∨ a ∈ l := by
  induction l with
  | nil => simp [insertByRevDesc]
  | cons y ys ih =>
    simp only [insertByRevDesc]
    split
    · simp
    · simp [ih]
      tauto

theorem mem_sortByRevDesc {a : UserPerfRow} {l : List UserPerfRow} :
    a ∈ sortByRevDesc l ↔ a ∈ l := by
  induction l with
  | nil => simp [sortByRevDesc]
  | cons x xs ih =>
    simp only [sortByRevDesc, List.foldr_cons] at ih ⊢
    rw [mem_insertByRevDesc, ih, List.mem_cons]

theorem mem_applyPage {a : UserPerfRow} {limit offset : Option Int} {l : List UserPerfRow}
    (h : a ∈ applyPage limit offset l) : a ∈ l := by
  cases limit with
  | none =>
    cases offset with
    | none => exact h
    | some o => exact List.drop_subset _ _ h
  | some k =>
    cases offset with
    | none => exact List.take_subset _ _ h
    | some o => exact List.drop_subset _ _ (List.take_subset _ _ h)

/-- C3, amended: `getUserPerformance` computes the pagination total as a
window count over the filtered, grouped set, in the same query, before
limit and offset apply — so every page that contains at least one row
reports the group count of the whole filtered set, and any two non-empty
pages agree; but a page wholly past the end of the result (or an empty
filtered set) reports total 0, because the handler reads the window count
off the first returned row. -/
theorem getUserPerformance_total_contract (users : List UserRow) (sales : List SaleRow)
    (sd ed : Option String) (uid : Option Int) :
    (∀ l o, (getUserPerformanceEval users sales sd ed uid l o).data ≠ [] →
      (getUserPerformanceEval users sales sd ed uid l o).total
        = (userPerfGroupRows users sales sd ed uid).length) ∧
    (∀ l o, (getUserPerformanceEval users sales sd ed uid l o).data = [] →
      (getUserPerformanceEval users sales sd ed uid l o).total = 0) ∧
    (∀ l1 o1 l2 o2,
      (getUserPerformanceEval users sales sd ed uid l1 o1).data ≠ [] →
      (getUserPerformanceEval users sales sd ed uid l2 o2).data ≠ [] →
      (getUserPerformanceEval users sales sd ed uid l1 o1).total
        = (getUserPerformanceEval users sales sd ed uid l2 o2).total) := by
  have key : ∀ l o, (getUserPerformanceEval users sales sd ed uid l o).data ≠ [] →
      (getUserPerformanceEval users sales sd ed uid l o).total
        = (userPerfGroupRows users sales sd ed uid).length := by
    intro l o h
    simp only [getUserPerformanceEval] at h ⊢
    rcases hp : applyPage l o (sortByRevDesc (userPerfGroupRows users sales sd ed uid)) with
      - | ⟨r, t⟩
    · rw [hp] at h
      simp at h
    · have hr : r ∈ applyPage l o (sortByRevDesc (userPerfGroupRows users sales sd ed uid)) := by
        rw [hp]
        exact List.mem_cons_self r t
      exact total_count_of_mem_groupRows (mem_sortByRevDesc.1 (mem_applyPage hr))
  refine ⟨key, ?_, ?_⟩
  · intro l o h
    simp only [getUserPerformanceEval] at h ⊢
    rw [List.map_eq_nil_iff] at h
    rw [h]
  · intro l1 o1 l2 o2 h1 h2
    rw [key l1 o1 h1, key l2 o2 h2]

/-- Counterexample to C3 as stated: with one user owning one sale, the
first page reports total 1, but the page at offset 1 — past the end of
the one-row result — reports total 0, not the filtered-set group count. -/
theorem getUserPerformance_total_page_past_end :
    (getUserPerformanceEval [{ id := 1, name := "Alice", role := "Agent" }]
        [{ id := 1, user_id := 1, amount := 100, date := "2021-01-01" }]
        none none none (some 10) none).total = 1 ∧
    (getUserPerformanceEval [{ id := 1, name := "Alice", role := "Agent" }]
        [{ id := 1, user_id := 1, amount := 100, date := "2021-01-01" }]
        none none none (some 10) (some 1)).total = 0 := by
  constructor <;> rfl

/-- Witness for C3 (amended): the non-empty first page of the same data
reports the group count 1. -/
theorem getUserPerformance_total_contract_witness :
    (getUserPerformanceEval [{ id := 1, name := "Alice", role := "Agent" }]
        [{ id := 1, user_id := 1, amount := 100, date := "2021-01-01" }]
        none none none (some 10) none).total
      = (userPerfGroupRows [{ id := 1, name := "Alice", role := "Agent" }]
          [{ id := 1, user_id := 1, amount := 100, date := "2021-01-01" }]
          none none none).length :=
  (getUserPerformance_total_contract
      [{ id := 1, name := "Alice", role := "Agent" }]
      [{ id := 1, user_id := 1, amount := 100, date := "2021-01-01" }]
      none none none).1 (some 10) none (by decide)

/-! ## C2: bound parameters and SQL-text independence -/

/-- Counterexample to C2 as stated: the generated SQL text is not
independent of all user-supplied values — the granularity is interpolated
into the text (guarded by the `getSafeDateTruncInterval` allowlist), so
`day` and `month` requests produce different SQL strings. -/
theorem sql_text_depends_on_granularity :
    Option.map SqlStmt.sql (getTimeSeriesStmt "day" none none none none)
      ≠ Option.map SqlStmt.sql (getTimeSeriesStmt "month" none none none none) := by
  decide

/-- C2, amended: apart from the allowlisted granularity interpolation,
every user-supplied value (dates, ids, limit, offset) enters the built
statements only as a bound positional parameter: for each builder, the SQL
text is a function of which optional filters are present (and of the
granularity), never of the supplied values themselves. -/
theorem sql_text_independent_of_values :
    (∀ (g : String) (sd1 ed1 : Option String) (u1 gr1 : Option Int)
        (sd2 ed2 : Option String) (u2 gr2 : Option Int),
      jsTruthyStr sd1 = jsTruthyStr sd2 → jsTruthyStr ed1 = jsTruthyStr ed2 →
      jsTruthyInt u1 = jsTruthyInt u2 → jsTruthyInt gr1 = jsTruthyInt gr2 →
      Option.map SqlStmt.sql (getTimeSeriesStmt g sd1 ed1 u1 gr1)
        = Option.map SqlStmt.sql (getTimeSeriesStmt g sd2 ed2 u2 gr2)) ∧
    (∀ (sd1 ed1 : Option String) (u1 l1 o1 : Option Int)
        (sd2 ed2 : Option String) (u2 l2 o2 : Option Int),
      jsTruthyStr sd1 = jsTruthyStr sd2 → jsTruthyStr ed1 = jsTruthyStr ed2 →
      jsTruthyInt u1 = jsTruthyInt u2 → l1.isSome = l2.isSome → o1.isSome = o2.isSome →
      (getUserPerformanceStmt sd1 ed1 u1 l1 o1).sql
        = (getUserPerformanceStmt sd2 ed2 u2 l2 o2).sql) ∧
    (∀ (sd1 ed1 : Option String) (g1 : Option Int)
        (sd2 ed2 : Option String) (g2 : Option Int),
      jsTruthyStr sd1 = jsTruthyStr sd2 → jsTruthyStr ed1 = jsTruthyStr ed2 →
      jsTruthyInt g1 = jsTruthyInt g2 →
      (getGroupPerformanceStmt sd1 ed1 g1).sql = (getGroupPerformanceStmt sd2 ed2 g2).sql) ∧
    (∀ (sd1 ed1 : Option String) (lim1 : Int) (sd2 ed2 : Option String) (lim2 : Int),
      jsTruthyStr sd1 = jsTruthyStr sd2 → jsTruthyStr ed1 = jsTruthyStr ed2 →
      (getLeaderboardStmt sd1 ed1 lim1).sql = (getLeaderboardStmt sd2 ed2 lim2).sql) ∧
    (∀ (sd1 ed1 sd2 ed2 : Option String),
      jsTruthyStr sd1 = jsTruthyStr sd2 → jsTruthyStr ed1 = jsTruthyStr ed2 →
      (getSummaryStatsStmt sd1 ed1).sql = (getSummaryStatsStmt sd2 ed2).sql) ∧
    (∀ a b c d e f g h : String,
      (getPeriodComparisonStmt a b c d).sql = (getPeriodComparisonStmt e f g h).sql) := by
  refine ⟨?_, ?_, ?_, ?_, ?_, ?_⟩
  · intro g sd1 ed1 u1 gr1 sd2 ed2 u2 gr2 h1 h2 h3 h4
    cases hg : getSafeDateTruncInterval g with
    | none => simp [getTimeSeriesStmt, hg]
    | some t =>
      cases hsd : jsTruthyStr sd2 <;> cases hed : jsTruthyStr ed2 <;>
        cases hu : jsTruthyInt u2 <;> cases hgr : jsTruthyInt gr2 <;>
        simp [getTimeSeriesStmt, hg, h1, h2, h3, h4, hsd, hed, hu, hgr,
          pushCond, whereClauseOf, placeholder]
  · intro sd1 ed1 u1 l1 o1 sd2 ed2 u2 l2 o2 h1 h2 h3 h4 h5
    cases l1 <;> cases l2 <;> simp at h4 <;> cases o1 <;> cases o2 <;> simp at h5 <;>
      cases hsd : jsTruthyStr sd2 <;> cases hed : jsTruthyStr ed2 <;>
      cases hu : jsTruthyInt u2 <;>
      simp [getUserPerformanceStmt, h1, h2, h3, hsd, hed, hu,
        pushCond, whereClauseOf, placeholder]
  · intro sd1 ed1 g1 sd2 ed2 g2 h1 h2 h3
    cases hsd : jsTruthyStr sd2 <;> cases hed : jsTruthyStr ed2 <;>
      cases hgr : jsTruthyInt g2 <;>
      simp [getGroupPerformanceStmt, h1, h2, h3, hsd, hed, hgr,
        pushCond, whereClauseOf, placeholder]
  · intro sd1 ed1 lim1 sd2 ed2 lim2 h1 h2
    cases hsd : jsTruthyStr sd2 <;> cases hed : jsTruthyStr ed2 <;>
      simp [getLeaderboardStmt, h1, h2, hsd, hed, pushCond, whereClauseOf, placeholder]
  · intro sd1 ed1 sd2 ed2 h1 h2
    cases hsd : jsTruthyStr sd2 <;> cases hed : jsTruthyStr ed2 <;>
      simp [getSummaryStatsStmt, h1, h2, hsd, hed, pushCond, whereClauseOf, placeholder]
  · intro a b c d e f g h
    rfl

/-- Witness for C2 (amended): changing the date value (not its presence)
leaves the time-series and user-performance SQL text unchanged. -/
theorem sql_text_independent_of_values_witness :
    Option.map SqlStmt.sql (getTimeSeriesStmt "day" (some "2021-01-01") none (some 7) none)
      = Option.map SqlStmt.sql (getTimeSeriesStmt "day" (some "1999-12-31") none (some 8) none) ∧
    (getUserPerformanceStmt (some "2021-01-01") none none (some 10) (some 5)).sql
      = (getUserPerformanceStmt (some "2020-06-15") none none (some 99) (some 0)).sql :=
  ⟨sql_text_independent_of_values.1 "day" (some "2021-01-01") none (some 7) none
      (some "1999-12-31") none (some 8) none rfl rfl rfl rfl,
   sql_text_independent_of_values.2.1 (some "2021-01-01") none none (some 10) (some 5)
      (some "2020-06-15") none none (some 99) (some 0) rfl rfl rfl rfl rfl⟩

end SalesApi
